import Mathlib

/-!
Verification of the decision engine of the MCP-Server repository.

The repository contains two overlapping revisions of the same core:

* `src/server/mcp.py` together with `src/server/api.py` — a `server_data`
  table with a `UNIQUE(device_id, server_ip)` constraint, written through
  `save_to_db` (insert-or-replace) and `server_status` (update-then-insert),
  read through `get_decision`, orchestrated by the `/logs` and `/decision`
  endpoints which route every call through the Gemini collaborator.
* `src/server/server_management.py` and `src/server/database.py` — an
  append-log `server_requests` table with an autoincrement id and no
  uniqueness constraint.

Timestamps are modelled as integers (`datetime.now()` values compared with
`>`); the several `datetime.now()` reads inside one call are modelled as a
single instant `now`.  The liveness probe and the SQLite layer are external
effects; their outcomes are passed in as explicit parameters, so each Python
function becomes a pure Lean function of store × inputs × effect outcomes.
-/

namespace MCPServer

/-- The 5-minute duplicate window (`timedelta(minutes=5)`), in seconds. -/
def windowSeconds : Int := 300

/-! ## The `server_data` store of `src/server/mcp.py` -/

/-- One row of the `server_data` table created by `init_db` in
`src/server/mcp.py`: `(id,) device_id, server_ip, timestamp, change_config,
change_server` with `UNIQUE(device_id, server_ip)`.  The autoincrement `id`
plays no role in any query on this table and is omitted. -/
structure Record where
  device_id : String
  server_ip : String
  timestamp : Int
  change_config : Bool
  change_server : Bool
deriving Repr, DecidableEq

/-- The `server_data` table, as the list of its rows. -/
abbrev Store := List Record

/-- The `WHERE device_id = ? AND server_ip = ?` filter. -/
def keyMatch (d ip : String) (r : Record) : Bool :=
  r.device_id = d && r.server_ip = ip

/-- The duplicate lookup of `save_to_db` (`src/server/mcp.py` lines 72-82):
`SELECT * FROM server_data WHERE device_id = ? AND server_ip = ? AND
timestamp > ?` with `? = now - five_minutes`, `fetchone`. -/
def findDuplicate (s : Store) (d ip : String) (now : Int) : Option Record :=
  s.find? (fun r => keyMatch d ip r && decide (r.timestamp > now - windowSeconds))

/-- `INSERT OR REPLACE INTO server_data (device_id, server_ip, timestamp)`:
under the unique key, any conflicting row is deleted and a fresh row is
inserted; `change_config`/`change_server` take their `FALSE` defaults. -/
def insertOrReplace (s : Store) (d ip : String) (now : Int) : Store :=
  (s.filter (fun r => !(keyMatch d ip r))) ++ [⟨d, ip, now, false, false⟩]

/-- Caller-visible outcome of `save_to_db`: the "Duplicate request detected",
"New request saved" and "Error: Database error" strings. -/
inductive SaveOutcome where
  | duplicate (ts : Int)
  | newSaved (ts : Int)
  | dbError
deriving Repr, DecidableEq

/-- `save_to_db` of `src/server/mcp.py`: check the 5-minute window, report a
duplicate without writing, otherwise insert-or-replace a fresh pending row.
`dbFail` is the outcome of the SQLite layer: when a `sqlite3.Error` is
raised the function returns the `Error:` string and, the transaction never
being committed, the store is unchanged. -/
def save_to_db (s : Store) (d ip : String) (now : Int) (dbFail : Bool) :
    SaveOutcome × Store :=
  if dbFail then (.dbError, s)
  else
    match findDuplicate s d ip now with
    | some r => (.duplicate r.timestamp, s)
    | none => (.newSaved now, insertOrReplace s d ip now)

/-- Outcome of the ping subprocess in `server_status`
(`src/server/mcp.py` lines 108-113): either `subprocess.run` completes and
`is_live = (returncode == 0)`, or it raises. -/
inductive ProbeResult where
  | ok (alive : Bool)
  | exn
deriving Repr, DecidableEq

/-- Caller-visible outcome of `server_status`: the `Status:` report, the
`Error: Database error` string, or the `Error: Ping error` /
`Error: Unexpected error` strings of the probe exception handlers
(`src/server/mcp.py` lines 149-156). -/
inductive StatusOutcome where
  | status (alive : Bool)
  | dbError
  | pingError
deriving Repr, DecidableEq

/-- The row transformation of `UPDATE server_data SET change_config = ?,
change_server = ?, timestamp = ? WHERE device_id = ? AND server_ip = ?`
with `(is_live, not is_live, now)`. -/
def applyStatus (d ip : String) (now : Int) (alive : Bool) (r : Record) : Record :=
  if keyMatch d ip r then
    { r with change_config := alive, change_server := !alive, timestamp := now }
  else r

/-- `server_status` of `src/server/mcp.py` (lines 103-156): ping, then update
the row for the key to `(is_live, not is_live, now)`, inserting it when the
update matched no row.  A probe exception is returned as an `Error:` string
before any database access; a database error likewise aborts the write. -/
def server_status (s : Store) (d ip : String) (now : Int)
    (probe : ProbeResult) (dbFail : Bool) : StatusOutcome × Store :=
  match probe with
  | .exn => (.pingError, s)
  | .ok alive =>
    if dbFail then (.dbError, s)
    else if s.any (keyMatch d ip) then
      (.status alive, s.map (applyStatus d ip now alive))
    else
      (.status alive, s ++ [⟨d, ip, now, alive, !alive⟩])

/-- Caller-visible outcome of one submit operation. -/
inductive SubmitResult where
  | pending (ts : Int)
  | resolved (change_config change_server : Bool) (ts : Int)
  | probeError
  | storeError
deriving Repr, DecidableEq

/-- The deterministic submit operation of the `mcp.py` revision, as the spec's
`SubmitReport`: `save_to_db` first and, when a duplicate inside the window is
detected, `server_status` (the tool sequence the `/logs` endpoint drives).
A `pending` result carries the both-flags-false recommendation of a first
report; a `resolved` result carries the probe-determined flags. -/
def submitReport (s : Store) (d ip : String) (now : Int) (probe : ProbeResult) :
    SubmitResult × Store :=
  match save_to_db s d ip now false with
  | (.duplicate _, s1) =>
    match server_status s1 d ip now probe false with
    | (.status alive, s2) => (.resolved alive (!alive) now, s2)
    | (.pingError, s2) => (.probeError, s2)
    | (.dbError, s2) => (.storeError, s2)
  | (.newSaved t, s1) => (.pending t, s1)
  | (.dbError, s1) => (.storeError, s1)

/-- `ORDER BY timestamp DESC LIMIT 1`: keep the later of two rows, the
earlier one on a tie. -/
def tsMax (a b : Record) : Record :=
  if b.timestamp > a.timestamp then b else a

/-- `ORDER BY timestamp DESC LIMIT 1` over a row list. -/
def pickLatest : List Record → Option Record
  | [] => none
  | r :: rs => some (rs.foldl tsMax r)

/-- `SELECT * FROM server_data WHERE device_id = ? AND server_ip = ?
ORDER BY timestamp DESC LIMIT 1` (`get_decision`, `src/server/mcp.py`). -/
def latestFor (s : Store) (d ip : String) : Option Record :=
  pickLatest (s.filter (keyMatch d ip))

/-- Caller-visible outcome of `get_decision`: the structured result dict,
the "No data found" string, or the `Error: Database error` string. -/
inductive GetOutcome where
  | notFound
  | found (device_id server_ip : String) (change_config change_server : Bool)
      (timestamp : Int)
  | dbError
deriving Repr, DecidableEq

/-- `get_decision` of `src/server/mcp.py` (lines 159-204). -/
def get_decision (s : Store) (d ip : String) (dbFail : Bool) : GetOutcome :=
  if dbFail then .dbError
  else
    match latestFor s d ip with
    | none => .notFound
    | some r => .found r.device_id r.server_ip r.change_config r.change_server
        r.timestamp

/-- Number of rows of the store holding the given key. -/
def countKey (s : Store) (d ip : String) : Nat :=
  (s.filter (keyMatch d ip)).length

/-! ## The `server_requests` store of `src/server/server_management.py`
and `src/server/database.py` -/

/-- One row of the `server_requests` table (`_create_tables`): autoincrement
`id`, `device_id`, `server_ip`, `timestamp`, two flags defaulting to
`FALSE`; no uniqueness constraint on the key. -/
structure SMRow where
  id : Nat
  device_id : String
  server_ip : String
  timestamp : Int
  change_config : Bool
  change_server : Bool
deriving Repr, DecidableEq

/-- The `server_requests` table: its rows plus the next autoincrement id. -/
structure SMStore where
  rows : List SMRow
  nextId : Nat
deriving Repr, DecidableEq

/-- The `WHERE device_id = ? AND server_ip = ?` filter on `server_requests`. -/
def smKeyMatch (d ip : String) (r : SMRow) : Bool :=
  r.device_id = d && r.server_ip = ip

/-- `_add_request` of `src/server/server_management.py` (lines 36-51):
`INSERT INTO server_requests (device_id, server_ip, timestamp)`, flags at
their `FALSE` defaults, returning `cursor.lastrowid`.  Every call appends a
fresh row. -/
def add_request (s : SMStore) (d ip : String) (now : Int) : Nat × SMStore :=
  (s.nextId, ⟨s.rows ++ [⟨s.nextId, d, ip, now, false, false⟩], s.nextId + 1⟩)

/-- `ORDER BY timestamp DESC LIMIT 1` over a row list: the row with the
greatest timestamp, the earlier-listed one on a tie. -/
def smPickLatest : List SMRow → Option SMRow
  | [] => none
  | r :: rs => some (rs.foldl (fun a b => if b.timestamp > a.timestamp then b else a) r)

/-- `_get_recent_request` of `src/server/server_management.py` (lines 54-74):
`SELECT * FROM server_requests WHERE device_id = ? AND server_ip = ? AND
timestamp > ? ORDER BY timestamp DESC LIMIT 1` with `? = now - 5 minutes`. -/
def get_recent_request (s : SMStore) (d ip : String) (now : Int) : Option SMRow :=
  smPickLatest (s.rows.filter
    (fun r => smKeyMatch d ip r && decide (r.timestamp > now - windowSeconds)))

/-- `_update_parameters` of `src/server/server_management.py` (lines 77-94),
with the intended semantics of its `UPDATE ... ORDER BY timestamp DESC
LIMIT 1`: set the two flags on the single most recent row for the key. -/
def update_parameters (s : SMStore) (d ip : String) (cc cs : Bool) : SMStore :=
  match smPickLatest (s.rows.filter (smKeyMatch d ip)) with
  | none => s
  | some target =>
    ⟨s.rows.map (fun r =>
        if r.id = target.id then { r with change_config := cc, change_server := cs }
        else r),
      s.nextId⟩

/-- Outcome of the `ping` subprocess in `_ping_server`
(`src/server/server_management.py` lines 118-126): `subprocess.call` either
completes with an exit code or raises. -/
inductive PingOutcome where
  | completed (exitCode : Nat)
  | raised
deriving Repr, DecidableEq

/-- `_ping_server` of `src/server/server_management.py`: alive iff the ping
subprocess completed with exit code 0; every exception is caught and
converted to `False`. -/
def ping_server (o : PingOutcome) : Bool :=
  match o with
  | .completed code => code == 0
  | .raised => false

/-- Caller-visible outcome of `report_server_status`: the resolved report
text with its two flags, or the "Initial report received / Change Config:
False / Change Server: False" text. -/
inductive SMResult where
  | resolved (change_config change_server : Bool)
  | initial
deriving Repr, DecidableEq

/-- `report_server_status` of `src/server/server_management.py` (lines
131-185): insert a row, look for a recent request, and — the lookup having
succeeded and the id test comparing against the id of a second insert
performed inside the branch condition — ping and update.  `alive` is the
probe outcome `_ping_server(server_ip)`. -/
def report_server_status (s : SMStore) (d ip : String) (now : Int)
    (alive : Bool) : SMResult × SMStore :=
  let s1 := (add_request s d ip now).2
  match get_recent_request s1 d ip now with
  | some r =>
    let idB := (add_request s1 d ip now).1
    let s2 := (add_request s1 d ip now).2
    if r.id ≠ idB then
      (.resolved alive (!alive), update_parameters s2 d ip alive (!alive))
    else (.initial, s2)
  | none => (.initial, s1)

/-- `save_request` of `src/server/database.py` (lines 45-89): select the
rows for the key inside the 5-minute window ordered newest first; when one
exists return `(True, its id, its timestamp)` without writing; otherwise
insert a fresh row with flags 0 and return `(False, new id, now)`.  On any
exception (`dbFail`) the handler returns `(False, None, None)` and the
uncommitted insert, if any, is rolled back. -/
def save_request (s : SMStore) (d ip : String) (now : Int) (dbFail : Bool) :
    (Bool × Option Nat × Option Int) × SMStore :=
  if dbFail then ((false, none, none), s)
  else
    match smPickLatest (s.rows.filter
        (fun r => smKeyMatch d ip r && decide (r.timestamp > now - windowSeconds))) with
    | some r => ((true, some r.id, some r.timestamp), s)
    | none => ((false, some s.nextId, some now), (add_request s d ip now).2)

/-- `update_server_status` of `src/server/database.py` (lines 91-129): find
the latest request id for the key; absent — return `False`; present — set
its flags to `(1,0)` when alive and `(0,1)` otherwise (timestamp kept).
An exception (`dbFail`) returns `False` with the store unchanged. -/
def update_server_status (s : SMStore) (d ip : String) (is_live : Bool)
    (dbFail : Bool) : Bool × SMStore :=
  if dbFail then (false, s)
  else
    match smPickLatest (s.rows.filter (smKeyMatch d ip)) with
    | none => (false, s)
    | some latest =>
      (true,
        ⟨s.rows.map (fun r =>
            if r.id = latest.id then
              { r with change_config := is_live, change_server := !is_live }
            else r),
          s.nextId⟩)

/-- Caller-visible outcome of `get_latest_decision`: either the function
returns normally with an optional row, or an exception escapes it. -/
inductive ReadResult where
  | raised
  | value (r : Option SMRow)
deriving Repr, DecidableEq

/-- `get_latest_decision` of `src/server/database.py` (lines 133-158).
`conn = get_db_connection()` on line 135 runs before the `try` block that
begins on line 139: a failure to open the connection (`connFail`) raises
out of the function, while an exception raised by the read inside the
`try` (`readFail`) is caught and turned into the same `None` as a missing
key. -/
def get_latest_decision (s : SMStore) (d ip : String) (connFail readFail : Bool) :
    ReadResult :=
  if connFail then .raised
  else if readFail then .value none
  else .value (smPickLatest (s.rows.filter (smKeyMatch d ip)))

/-! ## The endpoints of `src/server/api.py` -/

/-- Outcome of one Gemini round trip in `get_response_from_llm`: the HTTP
call returns a non-200 status, the returned text fails to parse as the
expected JSON, the request raises (timeout or connection error, caught by
the outer `except Exception`), or a tool name is successfully extracted. -/
inductive LLMReply where
  | httpError (code : Nat)
  | badJson
  | exn
  | chooseTool (tool : String)
deriving Repr, DecidableEq

/-- Result of `get_response_from_llm`: either the success payload of the
`/logs` flow or one of its `{"error": ...}` dictionaries. -/
inductive ApiResult where
  | messageOk
  | errorResult
deriving Repr, DecidableEq

/-- The extra `UPDATE server_data SET change_config = ?, change_server = ?,
timestamp = ? WHERE device_id = ? AND server_ip = ?` that `api.py` itself
performs after `server_status` (lines 215-224). -/
def apiUpdate (s : Store) (d ip : String) (now : Int) (alive : Bool) : Store :=
  s.map (applyStatus d ip now alive)

/-- The `request_type == "logs"` branch of `get_response_from_llm`
(`src/server/api.py` lines 55-245): absent credentials return an error
dict at once; a first Gemini reply that fails or names any tool other than
`save_to_db` returns an error dict; otherwise `save_to_db` runs and, on a
duplicate, a second Gemini reply must name `server_status`, whose output is
re-parsed for a `Status: ... Live` line (an `Error:` output therefore reads
as not live) before `api.py` re-writes the flags itself. -/
def get_llm_logs (s : Store) (d ip : String) (now : Int) (probe : ProbeResult)
    (apiKeyPresent : Bool) (reply1 reply2 : LLMReply) : ApiResult × Store :=
  if !apiKeyPresent then (.errorResult, s)
  else
    match reply1 with
    | .httpError _ => (.errorResult, s)
    | .badJson => (.errorResult, s)
    | .exn => (.errorResult, s)
    | .chooseTool t =>
      if t = "save_to_db" then
        match save_to_db s d ip now false with
        | (.duplicate _, s1) =>
          match reply2 with
          | .httpError _ => (.errorResult, s1)
          | .badJson => (.errorResult, s1)
          | .exn => (.errorResult, s1)
          | .chooseTool t2 =>
            if t2 = "server_status" then
              match server_status s1 d ip now probe false with
              | (o, s2) =>
                let server_is_live := match o with | .status a => a | _ => false
                (.messageOk, apiUpdate s2 d ip now server_is_live)
            else (.errorResult, s1)
        | (_, s1) => (.messageOk, s1)
      else (.errorResult, s)

/-- Caller-visible outcome of the `/logs` endpoint. -/
inductive EndpointResult where
  | ok
  | httpException (code : Nat)
deriving Repr, DecidableEq

/-- `api_log_request`, the `POST /logs` endpoint (`src/server/api.py` lines
343-351): whenever `get_response_from_llm` returns an `{"error": ...}` dict
it raises `HTTPException(status_code=500)`. -/
def api_log_request (s : Store) (d ip : String) (now : Int) (probe : ProbeResult)
    (apiKeyPresent : Bool) (reply1 reply2 : LLMReply) : EndpointResult × Store :=
  match get_llm_logs s d ip now probe apiKeyPresent reply1 reply2 with
  | (.errorResult, s1) => (.httpException 500, s1)
  | (.messageOk, s1) => (.ok, s1)

/-! ## Helper lemmas about the `server_data` model -/

lemma keyMatch_applyStatus (d ip d' ip' : String) (now : Int) (alive : Bool)
    (r : Record) :
    keyMatch d' ip' (applyStatus d ip now alive r) = keyMatch d' ip' r := by
  unfold applyStatus keyMatch
  split <;> rfl

lemma keyMatch_fields {d ip : String} {r : Record} (h : keyMatch d ip r = true) :
    r.device_id = d ∧ r.server_ip = ip := by
  unfold keyMatch at h
  rw [Bool.and_eq_true, decide_eq_true_eq, decide_eq_true_eq] at h
  exact h

lemma applyStatus_of_keyMatch {d ip : String} (now : Int) (alive : Bool)
    {r : Record} (h : keyMatch d ip r = true) :
    applyStatus d ip now alive r = ⟨d, ip, now, alive, !alive⟩ := by
  obtain ⟨hd, hip⟩ := keyMatch_fields h
  unfold applyStatus
  rw [if_pos h]
  cases r
  simp_all

lemma foldl_tsMax_const (rs : List Record) (c : Record)
    (h : ∀ x ∈ rs, x = c) : rs.foldl tsMax c = c := by
  induction rs with
  | nil => rfl
  | cons a rs ih =>
    have ha : a = c := h a (List.mem_cons_self a rs)
    subst ha
    have : tsMax a a = a := by unfold tsMax; simp
    rw [List.foldl_cons, this]
    exact ih fun x hx => h x (List.mem_cons_of_mem a hx)

lemma pickLatest_all_eq (l : List Record) (c : Record) (h0 : l ≠ [])
    (h1 : ∀ x ∈ l, x = c) : pickLatest l = some c := by
  cases l with
  | nil => exact absurd rfl h0
  | cons a rs =>
    have ha : a = c := h1 a (List.mem_cons_self a rs)
    subst ha
    simp only [pickLatest]
    rw [foldl_tsMax_const rs a fun x hx => h1 x (List.mem_cons_of_mem a hx)]

lemma findDuplicate_spec {s : Store} {d ip : String} {now : Int} {r : Record}
    (h : findDuplicate s d ip now = some r) :
    r ∈ s ∧ keyMatch d ip r = true ∧ r.timestamp > now - windowSeconds := by
  have hm := List.mem_of_find?_eq_some h
  have hp := List.find?_some h
  rw [Bool.and_eq_true, decide_eq_true_eq] at hp
  exact ⟨hm, hp.1, hp.2⟩

lemma filter_not_filter (p : Record → Bool) (l : List Record) :
    (l.filter (fun r => !(p r))).filter p = [] := by
  rw [List.filter_filter]
  apply List.filter_eq_nil_iff.mpr
  intro a _
  cases p a <;> simp

lemma latestFor_insertOrReplace (s : Store) (d ip : String) (now : Int) :
    latestFor (insertOrReplace s d ip now) d ip = some ⟨d, ip, now, false, false⟩ := by
  unfold latestFor insertOrReplace
  rw [List.filter_append, filter_not_filter]
  have : keyMatch d ip ⟨d, ip, now, false, false⟩ = true := by
    unfold keyMatch; simp
  simp only [List.nil_append, List.filter_cons, this, List.filter_nil]
  rfl

lemma latestFor_update (s : Store) (d ip : String) (now : Int) (alive : Bool)
    (r : Record) (hr : r ∈ s) (hk : keyMatch d ip r = true) :
    latestFor (s.map (applyStatus d ip now alive)) d ip
      = some ⟨d, ip, now, alive, !alive⟩ := by
  unfold latestFor
  have hcomp : (keyMatch d ip ∘ applyStatus d ip now alive) = keyMatch d ip := by
    funext x
    exact keyMatch_applyStatus d ip d ip now alive x
  rw [List.filter_map, hcomp]
  apply pickLatest_all_eq
  · have : applyStatus d ip now alive r ∈
        (s.filter (keyMatch d ip)).map (applyStatus d ip now alive) :=
      List.mem_map.mpr ⟨r, List.mem_filter.mpr ⟨hr, hk⟩, rfl⟩
    intro hnil
    rw [hnil] at this
    exact absurd this (List.not_mem_nil _)
  · intro y hy
    obtain ⟨x, hx, hxy⟩ := List.mem_map.mp hy
    have hkx : keyMatch d ip x = true := (List.mem_filter.mp hx).2
    rw [← hxy]
    exact applyStatus_of_keyMatch now alive hkx

lemma submit_eq_dup {s : Store} {d ip : String} {now : Int} {r : Record}
    (h : findDuplicate s d ip now = some r) (alive : Bool) :
    submitReport s d ip now (.ok alive)
      = (.resolved alive (!alive) now, s.map (applyStatus d ip now alive)) := by
  obtain ⟨hm, hk, _⟩ := findDuplicate_spec h
  have hany : s.any (keyMatch d ip) = true := List.any_eq_true.mpr ⟨r, hm, hk⟩
  unfold submitReport save_to_db server_status
  simp [h, hany]

lemma submit_exn_dup {s : Store} {d ip : String} {now : Int} {r : Record}
    (h : findDuplicate s d ip now = some r) :
    submitReport s d ip now .exn = (.probeError, s) := by
  unfold submitReport save_to_db server_status
  simp [h]

lemma submit_eq_new {s : Store} {d ip : String} {now : Int}
    (h : findDuplicate s d ip now = none) (probe : ProbeResult) :
    submitReport s d ip now probe = (.pending now, insertOrReplace s d ip now) := by
  unfold submitReport save_to_db
  simp [h]

lemma countKey_filter_le (q : Record → Bool) (s : Store) (d ip : String) :
    countKey (s.filter q) d ip ≤ countKey s d ip := by
  unfold countKey
  exact ((List.filter_sublist s).filter (keyMatch d ip)).length_le

lemma countKey_map_applyStatus (s : Store) (d ip d' ip' : String) (now : Int)
    (alive : Bool) :
    countKey (s.map (applyStatus d ip now alive)) d' ip' = countKey s d' ip' := by
  unfold countKey
  have hcomp : (keyMatch d' ip' ∘ applyStatus d ip now alive) = keyMatch d' ip' := by
    funext x
    exact keyMatch_applyStatus d ip d' ip' now alive x
  rw [List.filter_map, hcomp, List.length_map]

lemma countKey_insertOrReplace_le (s : Store) (d ip d' ip' : String) (now : Int)
    (h : countKey s d' ip' ≤ 1) :
    countKey (insertOrReplace s d ip now) d' ip' ≤ 1 := by
  unfold countKey insertOrReplace
  rw [List.filter_append]
  by_cases hk : keyMatch d' ip' ⟨d, ip, now, false, false⟩ = true
  · obtain ⟨hd, hip⟩ := keyMatch_fields hk
    simp only at hd hip
    subst hd; subst hip
    rw [filter_not_filter]
    simp [hk]
  · rw [List.length_append]
    have h2 : (List.filter (keyMatch d' ip') [(⟨d, ip, now, false, false⟩ : Record)]).length = 0 := by
      simp [List.filter_cons, hk]
    rw [h2, Nat.add_zero]
    calc ((s.filter fun r => !keyMatch d ip r).filter (keyMatch d' ip')).length
        ≤ (s.filter (keyMatch d' ip')).length :=
          ((List.filter_sublist s).filter (keyMatch d' ip')).length_le
      _ ≤ 1 := h

/-! ## Helper lemmas about the `server_requests` model -/

lemma smFoldl_mem (rs : List SMRow) (a : SMRow) :
    rs.foldl (fun x y => if y.timestamp > x.timestamp then y else x) a ∈ a :: rs := by
  induction rs generalizing a with
  | nil => simp
  | cons b rs ih =>
    have h := ih (if b.timestamp > a.timestamp then b else a)
    have hc : (if b.timestamp > a.timestamp then b else a) = b ∨
        (if b.timestamp > a.timestamp then b else a) = a := by
      by_cases hb : b.timestamp > a.timestamp
      · left; simp [hb]
      · right; simp [hb]
    rw [List.foldl_cons]
    rcases List.mem_cons.mp h with h1 | h1
    · rcases hc with h2 | h2
      · rw [h1, h2]
        exact List.mem_cons_of_mem a (List.mem_cons_self b rs)
      · rw [h1, h2]
        exact List.mem_cons_self a (b :: rs)
    · exact List.mem_cons_of_mem a (List.mem_cons_of_mem b h1)

lemma smPickLatest_mem {l : List SMRow} {r : SMRow}
    (h : smPickLatest l = some r) : r ∈ l := by
  cases l with
  | nil => simp [smPickLatest] at h
  | cons a rs =>
    simp only [smPickLatest, Option.some.injEq] at h
    rw [← h]
    exact smFoldl_mem rs a

lemma smPickLatest_ne_none {l : List SMRow} (h : l ≠ []) :
    smPickLatest l ≠ none := by
  cases l with
  | nil => exact absurd rfl h
  | cons a rs => simp [smPickLatest]

lemma update_parameters_length (s : SMStore) (d ip : String) (cc cs : Bool) :
    (update_parameters s d ip cc cs).rows.length = s.rows.length := by
  unfold update_parameters
  cases smPickLatest (s.rows.filter (smKeyMatch d ip)) <;> simp

/-! ## Claim theorems -/

/-- C1: for every key with a prior report strictly inside the 300-second
window, the submit operation probes liveness and persists the
table-determined recommendation — alive yields `change_config = true,
change_server = false`, not alive the opposite — and exactly one of the two
flags is true in the returned and stored record. -/
theorem submit_duplicate_resolves (s : Store) (d ip : String) (now : Int)
    (alive : Bool) (h : (findDuplicate s d ip now).isSome = true) :
    (submitReport s d ip now (.ok alive)).1 = .resolved alive (!alive) now ∧
    latestFor (submitReport s d ip now (.ok alive)).2 d ip
      = some ⟨d, ip, now, alive, !alive⟩ ∧
    Bool.xor alive (!alive) = true := by
  obtain ⟨r, hr⟩ := Option.isSome_iff_exists.mp h
  obtain ⟨hm, hk, _⟩ := findDuplicate_spec hr
  rw [submit_eq_dup hr alive]
  refine ⟨rfl, ?_, ?_⟩
  · exact latestFor_update s d ip now alive r hm hk
  · cases alive <;> rfl

/-- Witness for C1 at a concrete prior record 60 seconds old. -/
theorem submit_duplicate_resolves_witness :
    (findDuplicate [⟨"dev1", "10.0.0.5", 0, false, false⟩] "dev1" "10.0.0.5" 60).isSome
        = true ∧
    ((submitReport [⟨"dev1", "10.0.0.5", 0, false, false⟩] "dev1" "10.0.0.5" 60
          (.ok true)).1 = .resolved true false 60 ∧
      latestFor (submitReport [⟨"dev1", "10.0.0.5", 0, false, false⟩] "dev1" "10.0.0.5"
          60 (.ok true)).2 "dev1" "10.0.0.5" = some ⟨"dev1", "10.0.0.5", 60, true, false⟩ ∧
      Bool.xor true (!true) = true) :=
  ⟨by decide,
    submit_duplicate_resolves [⟨"dev1", "10.0.0.5", 0, false, false⟩] "dev1" "10.0.0.5"
      60 true (by decide)⟩

/-- C3: the duplicate check is a strict inequality on the trailing window —
a duplicate exists iff some record for the key has
`timestamp > now - 300`, and a record at exactly `now - 300` is not a
duplicate, in `save_to_db` (`findDuplicate`) as in `_get_recent_request`. -/
theorem duplicate_window_strict (s : Store) (d ip : String) (now : Int) :
    ((findDuplicate s d ip now).isSome = true ↔
      ∃ r ∈ s, keyMatch d ip r = true ∧ r.timestamp > now - windowSeconds) ∧
    findDuplicate [⟨d, ip, now - windowSeconds, false, false⟩] d ip now = none ∧
    get_recent_request ⟨[⟨0, d, ip, now - windowSeconds, false, false⟩], 1⟩ d ip now
      = none := by
  refine ⟨?_, ?_, ?_⟩
  · unfold findDuplicate
    rw [List.find?_isSome]
    constructor
    · rintro ⟨x, hx, hp⟩
      rw [Bool.and_eq_true, decide_eq_true_eq] at hp
      exact ⟨x, hx, hp.1, hp.2⟩
    · rintro ⟨x, hx, h1, h2⟩
      refine ⟨x, hx, ?_⟩
      rw [Bool.and_eq_true, decide_eq_true_eq]
      exact ⟨h1, h2⟩
  · simp [findDuplicate, List.find?_cons]
  · simp [get_recent_request, List.filter_cons, smPickLatest]

/-- Witness for C3 at a concrete store and time. -/
theorem duplicate_window_strict_witness :
    (((findDuplicate [⟨"dev1", "10.0.0.5", 0, false, false⟩] "dev1" "10.0.0.5" 60).isSome
          = true ↔
        ∃ r ∈ [(⟨"dev1", "10.0.0.5", 0, false, false⟩ : Record)],
          keyMatch "dev1" "10.0.0.5" r = true ∧ r.timestamp > 60 - windowSeconds) ∧
      findDuplicate [⟨"dev1", "10.0.0.5", 60 - windowSeconds, false, false⟩] "dev1"
          "10.0.0.5" 60 = none ∧
      get_recent_request ⟨[⟨0, "dev1", "10.0.0.5", 60 - windowSeconds, false, false⟩], 1⟩
          "dev1" "10.0.0.5" 60 = none) :=
  duplicate_window_strict [⟨"dev1", "10.0.0.5", 0, false, false⟩] "dev1" "10.0.0.5" 60

/-- C7: for a key with no prior record inside the 300-second window, the
submit operation returns the pending (both flags false) recommendation and
afterwards the key's stored record has both flags false and the report time
as its timestamp. -/
theorem submit_first_report (s : Store) (d ip : String) (now : Int)
    (probe : ProbeResult) (h : findDuplicate s d ip now = none) :
    (submitReport s d ip now probe).1 = .pending now ∧
    latestFor (submitReport s d ip now probe).2 d ip
      = some ⟨d, ip, now, false, false⟩ := by
  rw [submit_eq_new h probe]
  exact ⟨rfl, latestFor_insertOrReplace s d ip now⟩

/-- Witness for C7: a prior record 400 seconds old lies outside the window. -/
theorem submit_first_report_witness :
    findDuplicate [⟨"dev1", "10.0.0.5", -400, true, false⟩] "dev1" "10.0.0.5" 0 = none ∧
    ((submitReport [⟨"dev1", "10.0.0.5", -400, true, false⟩] "dev1" "10.0.0.5" 0
          (.ok true)).1 = .pending 0 ∧
      latestFor (submitReport [⟨"dev1", "10.0.0.5", -400, true, false⟩] "dev1" "10.0.0.5"
          0 (.ok true)).2 "dev1" "10.0.0.5" = some ⟨"dev1", "10.0.0.5", 0, false, false⟩) :=
  ⟨by decide,
    submit_first_report [⟨"dev1", "10.0.0.5", -400, true, false⟩] "dev1" "10.0.0.5" 0
      (.ok true) (by decide)⟩

/-- C8: `get_decision` on a key with no stored record returns the not-found
signal, and immediately after any submit it returns exactly the record just
written: the submitted key, the report time, and flags `(dup && alive,
dup && !alive)` where `dup` says whether the report was a duplicate inside
the window. -/
theorem get_decision_roundtrip (s : Store) (d ip : String) (now : Int)
    (alive : Bool) :
    (latestFor s d ip = none → get_decision s d ip false = .notFound) ∧
    get_decision (submitReport s d ip now (.ok alive)).2 d ip false
      = .found d ip ((findDuplicate s d ip now).isSome && alive)
          ((findDuplicate s d ip now).isSome && !alive) now := by
  constructor
  · intro h
    simp [get_decision, h]
  · cases hfd : findDuplicate s d ip now with
    | none =>
      rw [submit_eq_new hfd]
      simp [get_decision, latestFor_insertOrReplace]
    | some r =>
      obtain ⟨hm, hk, _⟩ := findDuplicate_spec hfd
      rw [submit_eq_dup hfd alive]
      simp [get_decision, latestFor_update s d ip now alive r hm hk]

/-- Witness for C8 at a concrete first report on an empty store. -/
theorem get_decision_roundtrip_witness :
    ((latestFor [] "dev1" "10.0.0.5" = none →
        get_decision [] "dev1" "10.0.0.5" false = .notFound) ∧
      get_decision (submitReport [] "dev1" "10.0.0.5" 0 (.ok true)).2 "dev1" "10.0.0.5"
          false
        = .found "dev1" "10.0.0.5"
            ((findDuplicate [] "dev1" "10.0.0.5" 0).isSome && true)
            ((findDuplicate [] "dev1" "10.0.0.5" 0).isSome && !true) 0) :=
  get_decision_roundtrip [] "dev1" "10.0.0.5" 0 true

/-- C2 counterexample: one `report_server_status` call on an empty
`server_requests` store leaves two rows for the same `(device_id,
server_ip)` pair — the claim that a submit never appends a second row for
the key fails on the append-log revision. -/
theorem single_record_counterexample :
    ((report_server_status ⟨[], 1⟩ "dev1" "10.0.0.5" 0 true).2.rows.filter
        (smKeyMatch "dev1" "10.0.0.5")).length = 2 := by decide

/-- C2 amended: on the `server_data` store of `mcp.py` the invariant holds —
a submit operation starting from a store with at most one row per key
leaves at most one row per key, inserting the first row or mutating the
existing one in place. -/
theorem single_record_per_key_amended (s : Store) (d ip d' ip' : String)
    (now : Int) (probe : ProbeResult) (hinv : ∀ a b, countKey s a b ≤ 1) :
    countKey (submitReport s d ip now probe).2 d' ip' ≤ 1 := by
  cases hfd : findDuplicate s d ip now with
  | none =>
    rw [submit_eq_new hfd probe]
    exact countKey_insertOrReplace_le s d ip d' ip' now (hinv d' ip')
  | some r =>
    cases probe with
    | exn =>
      rw [submit_exn_dup hfd]
      exact hinv d' ip'
    | ok alive =>
      rw [submit_eq_dup hfd alive]
      show countKey (s.map (applyStatus d ip now alive)) d' ip' ≤ 1
      rw [countKey_map_applyStatus]
      exact hinv d' ip'

/-- Witness for the amended C2 at a concrete store. -/
theorem single_record_per_key_amended_witness :
    countKey (submitReport [] "dev1" "10.0.0.5" 0 (.ok true)).2 "dev1" "10.0.0.5" ≤ 1 :=
  single_record_per_key_amended [] "dev1" "10.0.0.5" "dev1" "10.0.0.5" 0 (.ok true)
    (fun a b => by simp [countKey])

/-- C4 counterexample: with the collaborator credentials absent, `POST /logs`
raises `HTTPException 500` and writes nothing, whereas the deterministic
tool sequence on the same input returns the pending recommendation and
writes the record — the collaborator failure is propagated to the caller
instead of falling back. -/
theorem collaborator_fallback_counterexample :
    (api_log_request [] "dev1" "10.0.0.5" 0 (.ok true) false .exn .exn).1
        = .httpException 500 ∧
    (api_log_request [] "dev1" "10.0.0.5" 0 (.ok true) false .exn .exn).2 = [] ∧
    (submitReport [] "dev1" "10.0.0.5" 0 (.ok true)).1 = .pending 0 ∧
    (submitReport [] "dev1" "10.0.0.5" 0 (.ok true)).2 ≠ [] := by decide

/-- C4 amended: a collaborator failure — absent credentials, a non-200
response, an unparsable answer, or a raised exception — makes `POST /logs`
return an HTTP 500 error to the caller with the store unchanged; there is no
silent fallback to the deterministic logic. -/
theorem collaborator_failure_propagates (s : Store) (d ip : String) (now : Int)
    (probe : ProbeResult) (r1 r2 : LLMReply) (c : Nat) :
    api_log_request s d ip now probe false r1 r2 = (.httpException 500, s) ∧
    api_log_request s d ip now probe true (.httpError c) r2 = (.httpException 500, s) ∧
    api_log_request s d ip now probe true .badJson r2 = (.httpException 500, s) ∧
    api_log_request s d ip now probe true .exn r2 = (.httpException 500, s) :=
  ⟨rfl, rfl, rfl, rfl⟩

/-- C5 counterexample: in `mcp.server_status` an exception raised while
probing is returned to the caller as an `Error:` string and the record is
not moved to the server-down branch. -/
theorem probe_exception_counterexample :
    server_status [⟨"dev1", "10.0.0.5", 0, false, false⟩] "dev1" "10.0.0.5" 60 .exn false
      = (.pingError, [⟨"dev1", "10.0.0.5", 0, false, false⟩]) := rfl

/-- C5 amended: a probe that completes with a non-zero exit code (timeout,
unreachable host, malformed address) yields not-alive, and
`server_management._ping_server` converts a raised exception to not-alive
as well; on the not-alive outcome `mcp.server_status` proceeds on the
server-down branch, setting every record of the key to `change_config =
false, change_server = true` — but an exception raised inside
`mcp.server_status`'s own probe is returned as an error instead. -/
theorem probe_failure_defaults (n : Nat) (s : Store) (d ip : String) (now : Int) :
    ping_server .raised = false ∧
    (n ≠ 0 → ping_server (.completed n) = false) ∧
    (server_status s d ip now (.ok false) false).1 = .status false ∧
    (∀ r ∈ (server_status s d ip now (.ok false) false).2,
        keyMatch d ip r = true → r.change_config = false ∧ r.change_server = true) := by
  refine ⟨rfl, ?_, ?_, ?_⟩
  · intro hn
    cases n with
    | zero => exact absurd rfl hn
    | succ m => rfl
  · unfold server_status
    by_cases h : s.any (keyMatch d ip) = true <;> simp [h]
  · intro r hr hk
    unfold server_status at hr
    by_cases h : s.any (keyMatch d ip) = true
    · simp only [h, if_true, Bool.false_eq_true, if_false] at hr
      obtain ⟨x, hx, hxr⟩ := List.mem_map.mp hr
      by_cases hkx : keyMatch d ip x = true
      · rw [← hxr, applyStatus_of_keyMatch now false hkx]
        exact ⟨rfl, rfl⟩
      · exfalso
        apply hkx
        rw [← keyMatch_applyStatus d ip d ip now false x, hxr]
        exact hk
    · simp only [h, if_false, Bool.false_eq_true] at hr
      rcases List.mem_append.mp hr with h1 | h1
      · exfalso
        have hall := List.any_eq_false.mp (Bool.eq_false_iff.mpr h)
        exact hall r h1 hk
      · rw [List.mem_singleton.mp h1]
        exact ⟨rfl, rfl⟩

/-- Witness for the amended C5 at exit code 1 and a concrete store. -/
theorem probe_failure_defaults_witness :
    (ping_server .raised = false ∧
      ((1 : Nat) ≠ 0 → ping_server (.completed 1) = false) ∧
      (server_status [⟨"dev1", "10.0.0.5", 0, false, false⟩] "dev1" "10.0.0.5" 60
          (.ok false) false).1 = .status false ∧
      (∀ r ∈ (server_status [⟨"dev1", "10.0.0.5", 0, false, false⟩] "dev1" "10.0.0.5" 60
            (.ok false) false).2,
          keyMatch "dev1" "10.0.0.5" r = true →
            r.change_config = false ∧ r.change_server = true)) :=
  probe_failure_defaults 1 [⟨"dev1", "10.0.0.5", 0, false, false⟩] "dev1" "10.0.0.5" 60

/-- C6: when the store layer fails, `save_to_db` returns the `Error:`
outcome and `save_request` the all-`None` tuple — values disjoint from
every success result — and in both revisions (and in `server_status`'s
write) the store is left unchanged: no partial record is written. -/
theorem store_failure_surfaced (s : Store) (t : SMStore) (d ip : String)
    (now : Int) (alive : Bool) :
    save_to_db s d ip now true = (.dbError, s) ∧
    server_status s d ip now (.ok alive) true = (.dbError, s) ∧
    (∀ o s', save_to_db s d ip now false = (o, s') → o ≠ .dbError) ∧
    save_request t d ip now true = ((false, none, none), t) ∧
    (∀ res t', save_request t d ip now false = (res, t') → res.2.1 ≠ none) := by
  refine ⟨rfl, rfl, ?_, rfl, ?_⟩
  · intro o s' h
    cases hfd : findDuplicate s d ip now with
    | none =>
      simp only [save_to_db, Bool.false_eq_true, if_false, hfd] at h
      injection h with h1 h2
      rw [← h1]
      simp
    | some r =>
      simp only [save_to_db, Bool.false_eq_true, if_false, hfd] at h
      injection h with h1 h2
      rw [← h1]
      simp
  · intro res t' h
    cases hp : smPickLatest (t.rows.filter
        (fun r => smKeyMatch d ip r && decide (r.timestamp > now - windowSeconds))) with
    | none =>
      simp only [save_request, Bool.false_eq_true, if_false, hp] at h
      injection h with h1 h2
      rw [← h1]
      simp
    | some r =>
      simp only [save_request, Bool.false_eq_true, if_false, hp] at h
      injection h with h1 h2
      rw [← h1]
      simp

/-- Witness for C6 at concrete stores. -/
theorem store_failure_surfaced_witness :
    (save_to_db [] "dev1" "10.0.0.5" 0 true = (.dbError, []) ∧
      server_status [] "dev1" "10.0.0.5" 0 (.ok true) true = (.dbError, []) ∧
      (∀ o s', save_to_db [] "dev1" "10.0.0.5" 0 false = (o, s') → o ≠ .dbError) ∧
      save_request ⟨[], 1⟩ "dev1" "10.0.0.5" 0 true = ((false, none, none), ⟨[], 1⟩) ∧
      (∀ res t', save_request ⟨[], 1⟩ "dev1" "10.0.0.5" 0 false = (res, t') →
        res.2.1 ≠ none)) :=
  store_failure_surfaced [] ⟨[], 1⟩ "dev1" "10.0.0.5" 0 true

/-- C10 counterexample: a connection-open failure — `sqlite3.connect` runs
before the `try` block of `get_latest_decision` — escapes the function as a
raised exception, an outcome the caller can distinguish from the `None` of
a missing key: the function does not return `None` on every store
failure. -/
theorem get_latest_decision_raises_counterexample :
    get_latest_decision ⟨[], 1⟩ "dev1" "10.0.0.5" true false = .raised ∧
    get_latest_decision ⟨[], 1⟩ "dev1" "10.0.0.5" true false
      ≠ get_latest_decision ⟨[], 1⟩ "dev1" "10.0.0.5" false false := by decide

/-- C10 amended: an exception raised by the read inside the `try` block of
`get_latest_decision` is swallowed into the same `None` as a missing key,
so those two cases are indistinguishable to the caller; but the connection
acquisition precedes the `try`, so a connection-open failure propagates
out of the function as a raised exception instead of returning `None`. -/
theorem get_latest_decision_swallows_read_errors (s : SMStore) (d ip : String) :
    get_latest_decision s d ip false true = .value none ∧
    (s.rows.filter (smKeyMatch d ip) = [] →
      get_latest_decision s d ip false false = .value none) ∧
    get_latest_decision s d ip false true
      = get_latest_decision ⟨[], s.nextId⟩ d ip false false ∧
    get_latest_decision s d ip true false = .raised := by
  refine ⟨rfl, ?_, rfl, rfl⟩
  intro h
  simp [get_latest_decision, h, smPickLatest]

/-- Witness for the amended C10 at a concrete store holding an unrelated
key. -/
theorem get_latest_decision_swallows_read_errors_witness :
    (get_latest_decision ⟨[⟨1, "other", "1.1.1.1", 0, false, false⟩], 2⟩ "dev1"
        "10.0.0.5" false true = .value none ∧
      ((⟨[⟨1, "other", "1.1.1.1", 0, false, false⟩], 2⟩ : SMStore).rows.filter
          (smKeyMatch "dev1" "10.0.0.5") = [] →
        get_latest_decision ⟨[⟨1, "other", "1.1.1.1", 0, false, false⟩], 2⟩ "dev1"
          "10.0.0.5" false false = .value none) ∧
      get_latest_decision ⟨[⟨1, "other", "1.1.1.1", 0, false, false⟩], 2⟩ "dev1"
          "10.0.0.5" false true
        = get_latest_decision ⟨[], 2⟩ "dev1" "10.0.0.5" false false ∧
      get_latest_decision ⟨[⟨1, "other", "1.1.1.1", 0, false, false⟩], 2⟩ "dev1"
          "10.0.0.5" true false = .raised) :=
  get_latest_decision_swallows_read_errors
    ⟨[⟨1, "other", "1.1.1.1", 0, false, false⟩], 2⟩ "dev1" "10.0.0.5"

/-- C9: the initial-report branch of `report_server_status` is unreachable —
the row inserted before the duplicate lookup always lies inside the window,
and the second insert in the branch condition always yields a fresh id
different from the found row's id — so every call, the very first for a key
included, returns a resolved recommendation and appends two rows. -/
theorem report_always_resolves (s : SMStore) (d ip : String) (now : Int)
    (alive : Bool) (hfresh : ∀ r ∈ s.rows, r.id < s.nextId) :
    (report_server_status s d ip now alive).1 = .resolved alive (!alive) ∧
    (report_server_status s d ip now alive).2.rows.length = s.rows.length + 2 := by
  have hqA : (smKeyMatch d ip (⟨s.nextId, d, ip, now, false, false⟩ : SMRow)
      && decide ((⟨s.nextId, d, ip, now, false, false⟩ : SMRow).timestamp
          > now - windowSeconds)) = true := by
    simp only [smKeyMatch, windowSeconds, Bool.and_eq_true, decide_eq_true_eq]
    refine ⟨⟨by simp, by simp⟩, by omega⟩
  have hmemA : (⟨s.nextId, d, ip, now, false, false⟩ : SMRow)
      ∈ (s.rows ++ [(⟨s.nextId, d, ip, now, false, false⟩ : SMRow)]).filter
        (fun r => smKeyMatch d ip r && decide (r.timestamp > now - windowSeconds)) :=
    List.mem_filter.mpr
      ⟨List.mem_append.mpr (Or.inr (List.mem_singleton.mpr rfl)), hqA⟩
  obtain ⟨r, hr⟩ := Option.ne_none_iff_exists'.mp
    (smPickLatest_ne_none (List.ne_nil_of_mem hmemA))
  have hrmem : r ∈ s.rows ++ [(⟨s.nextId, d, ip, now, false, false⟩ : SMRow)] :=
    (List.mem_filter.mp (smPickLatest_mem hr)).1
  have hrid : r.id < s.nextId + 1 := by
    rcases List.mem_append.mp hrmem with h1 | h1
    · exact Nat.lt_succ_of_lt (hfresh r h1)
    · rw [List.mem_singleton.mp h1]
      exact Nat.lt_succ_self _
  have hget : get_recent_request
      ⟨s.rows ++ [⟨s.nextId, d, ip, now, false, false⟩], s.nextId + 1⟩ d ip now
      = some r := hr
  have hrep : report_server_status s d ip now alive
      = (.resolved alive (!alive),
          update_parameters
            ⟨(s.rows ++ [⟨s.nextId, d, ip, now, false, false⟩])
                ++ [⟨s.nextId + 1, d, ip, now, false, false⟩],
              s.nextId + 1 + 1⟩
            d ip alive (!alive)) := by
    unfold report_server_status add_request
    simp only []
    rw [hget]
    exact if_pos (Nat.ne_of_lt hrid)
  rw [hrep]
  refine ⟨rfl, ?_⟩
  show (update_parameters _ d ip alive (!alive)).rows.length = s.rows.length + 2
  rw [update_parameters_length]
  simp

/-- Witness for C9: the very first call for a key on the empty store. -/
theorem report_always_resolves_witness :
    (∀ r ∈ (⟨[], 1⟩ : SMStore).rows, r.id < (⟨[], 1⟩ : SMStore).nextId) ∧
    ((report_server_status ⟨[], 1⟩ "dev1" "10.0.0.5" 0 true).1 = .resolved true (!true) ∧
      (report_server_status ⟨[], 1⟩ "dev1" "10.0.0.5" 0 true).2.rows.length
        = (⟨[], 1⟩ : SMStore).rows.length + 2) :=
  ⟨fun r hr => absurd hr (List.not_mem_nil r),
    report_always_resolves ⟨[], 1⟩ "dev1" "10.0.0.5" 0 true
      (fun r hr => absurd hr (List.not_mem_nil r))⟩

end MCPServer
